import Mathlib

/-!
Shallow embedding of `src/main.go` (a Gin + MongoDB CRUD service over a
"books" collection) and proofs about its request handlers.

Modelling choices, each tied to a construct of the source:

* `primitive.ObjectID` is modelled as its 24-character lowercase hex string
  (`ObjectID`).  `ObjectIDFromHex` accepts exactly strings of length 24 whose
  characters are hex digits (as `hex.DecodeString` does), normalising case.
* `Book` mirrors the Go struct: `ID` (bson `_id,omitempty`), `Title`,
  `Author`, `Price`.  `float64` carries no arithmetic in this program, so
  `Price` is modelled as `Rat`; only literal values and equality are used.
* A JSON request body that decodes successfully is a `BookJSON`: each field
  optionally present.  `bindBook` is Go's `BindJSON` struct fill-in: absent
  fields take the Go zero value ("" / 0 / the nil ObjectID).
* The Mongo collection is a `List Book` in insertion order.  `mongoFindOne`,
  `mongoInsertOne`, `mongoUpdateOne` (with `$set` of the marshalled struct,
  `_id` omitted when zero via `bson:"_id,omitempty"`) and `mongoDeleteOne`
  model the driver calls made by the handlers.  Transport/driver failures are
  injected through a `storeFail` flag, since the handlers only branch on
  `err != nil`.
* A handler's observable result is its `Response` (status plus the JSON body
  it wrote through `c.JSON`), the resulting collection where the handler
  writes, and trace flags recording whether the store was reached and whether
  the body was decoded.  `log.Fatal` in `getBooks` is the `fatal` outcome.
* A nil Go slice marshals to JSON `null` and a non-nil one to an array;
  `serializeSlice` reproduces this for the `books` slice of `getBooks`, which
  stays nil exactly when no document was appended.
-/

/-- A MongoDB ObjectID, represented by its canonical (lowercase) 24-character
hex string. -/
abbrev ObjectID := String

/-- The zero value of `primitive.ObjectID` (12 zero bytes). -/
def NilObjectID : ObjectID := "000000000000000000000000"

/-- Hex digit test of `encoding/hex` (0-9, a-f, A-F). -/
def isHexChar (c : Char) : Bool :=
  c.isDigit || ('a' ≤ c && c ≤ 'f') || ('A' ≤ c && c ≤ 'F')

/-- `primitive.ObjectIDFromHex`: succeeds exactly on 24-character hex strings,
yielding the (case-normalised) ObjectID; anything else is the `ErrInvalidHex`
branch taken by the handlers. -/
def ObjectIDFromHex (s : String) : Option ObjectID :=
  if s.data.length = 24 && s.data.all isHexChar then
    some (String.mk (s.data.map Char.toLower))
  else none

/-- The `Book` struct of `main.go`. -/
structure Book where
  ID     : ObjectID := NilObjectID
  Title  : String := ""
  Author : String := ""
  Price  : Rat := 0
deriving DecidableEq

/-- A successfully parsed JSON body for a Book: each field may be absent. -/
structure BookJSON where
  id     : Option ObjectID := none
  title  : Option String := none
  author : Option String := none
  price  : Option Rat := none
deriving DecidableEq

/-- `c.BindJSON(&book)` on a well-formed body: fields absent from the JSON
keep the Go zero value of the struct field. -/
def bindBook (j : BookJSON) : Book :=
  { ID := j.id.getD NilObjectID
    Title := j.title.getD ""
    Author := j.author.getD ""
    Price := j.price.getD 0 }

/-- The bson document `$set` receives when the handler passes the decoded
struct: `_id` is omitted when zero (tag `bson:"_id,omitempty"`), the other
three fields are always present. -/
structure SetDoc where
  id     : Option ObjectID
  title  : String
  author : String
  price  : Rat
deriving DecidableEq

/-- bson marshalling of a `Book` for `$set`. -/
def marshalSet (b : Book) : SetDoc :=
  { id := if b.ID = NilObjectID then none else some b.ID
    title := b.Title, author := b.Author, price := b.Price }

/-- The books collection, in insertion order. -/
abbrev Collection := List Book

/-- `FindOne(ctx, bson.M{"_id": objID})`: the first document matching the id. -/
def mongoFindOne (st : Collection) (oid : ObjectID) : Option Book :=
  st.find? (fun b => b.ID == oid)

/-- Applying a `$set` document to a matched document. -/
def applySet (sd : SetDoc) (b : Book) : Book :=
  { ID := sd.id.getD b.ID, Title := sd.title, Author := sd.author, Price := sd.price }

/-- `UpdateOne(ctx, bson.M{"_id": objID}, bson.D{{"$set", updatedBook}})`:
updates the first matching document, returning the new collection and the
matched count; attempting to `$set _id` to a different value is a write
error (`_id` is immutable in MongoDB). -/
def mongoUpdateOne (st : Collection) (oid : ObjectID) (sd : SetDoc) :
    Except Unit (Collection × Nat) :=
  match st with
  | [] => .ok ([], 0)
  | b :: rest =>
    if b.ID == oid then
      match sd.id with
      | some x => if x == b.ID then .ok (applySet sd b :: rest, 1) else .error ()
      | none => .ok (applySet sd b :: rest, 1)
    else
      match mongoUpdateOne rest oid sd with
      | .error e => .error e
      | .ok (r, n) => .ok (b :: r, n)

/-- `DeleteOne(ctx, bson.M{"_id": objID})`: removes the first matching
document, returning the new collection and the deleted count. -/
def mongoDeleteOne (st : Collection) (oid : ObjectID) : Collection × Nat :=
  match st with
  | [] => ([], 0)
  | b :: rest =>
    if b.ID == oid then (rest, 1)
    else
      let (r, n) := mongoDeleteOne rest oid
      (b :: r, n)

/-- `InsertOne(ctx, newBook)`: with `bson:"_id,omitempty"`, a zero `ID` is
omitted from the marshalled document and the store generates a fresh id
(`freshId`); a non-zero `ID` is marshalled as `_id` and persisted as given.
Returns the new collection and the inserted id. -/
def mongoInsertOne (st : Collection) (freshId : ObjectID) (b : Book) :
    Collection × ObjectID :=
  let assigned := if b.ID = NilObjectID then freshId else b.ID
  (st ++ [{ b with ID := assigned }], assigned)

/-- The JSON values the handlers write with `c.JSON`. -/
inductive JsonVal where
  /-- `encoding/json` output for a nil slice. -/
  | null
  /-- a non-nil slice of books -/
  | arr (books : List Book)
  /-- a single book -/
  | book (b : Book)
  /-- `gin.H{key: msg}`: a one-key object with a string message -/
  | obj1 (key : String) (msg : String)
  /-- `gin.H{"insertedID": result}` of `addBook` -/
  | insertedID (oid : ObjectID)
deriving DecidableEq

/-- An HTTP response: status code and JSON body. -/
structure Response where
  status : Nat
  body   : JsonVal
deriving DecidableEq

/-- `var books []Book` is a nil slice; it is non-nil exactly when at least one
document was appended, and `encoding/json` (used by `c.JSON`) marshals a nil
slice as `null` and a non-nil slice as an array. -/
def serializeSlice (bs : List Book) : JsonVal :=
  if bs.isEmpty then .null else .arr bs

/-- Outcome of the `getBooks` handler: a response, or process abort
(`log.Fatal`). -/
inductive ListOutcome where
  | resp (r : Response)
  | fatal
deriving DecidableEq

/-- Cursor iteration of `getBooks`: each document either decodes to a `Book`
or fails to decode. Collect the books in order, `none` on the first decode
failure. -/
def collectBooks (cur : List (Except Unit Book)) : Option (List Book) :=
  match cur with
  | [] => some []
  | .error _ :: _ => none
  | .ok b :: rest => (collectBooks rest).map (b :: ·)

/-- The `getBooks` handler. `findRes` is the outcome of `Find`: an error, or
the cursor's documents with their individual decode outcomes. A `Find` error
gives 500; a decode failure during iteration hits `log.Fatal`; otherwise the
accumulated slice is written with status 200. -/
def getBooks (findRes : Except Unit (List (Except Unit Book))) : ListOutcome :=
  match findRes with
  | .error _ => .resp ⟨500, .obj1 "error" "Error retrieving books"⟩
  | .ok cur =>
    match collectBooks cur with
    | none => .fatal
    | some bs => .resp ⟨200, serializeSlice bs⟩

/-- Failure of `FindOne(...).Decode(&book)`: `mongo.ErrNoDocuments` (a miss)
or any other store/transport error. -/
inductive FindErr where
  | noDocuments
  | storeFailure
deriving DecidableEq

/-- The observable result of the lookup the `getBookByID` handler performs. -/
def findOneOutcome (storeFail : Bool) (st : Collection) (oid : ObjectID) :
    Except FindErr Book :=
  if storeFail then .error .storeFailure
  else
    match mongoFindOne st oid with
    | none => .error .noDocuments
    | some b => .ok b

/-- Result of a read-only by-id handler: the response and whether the store
was reached. -/
structure GetResult where
  resp : Response
  storeCalled : Bool
deriving DecidableEq

/-- The `getBookByID` handler. -/
def getBookByID (storeFail : Bool) (st : Collection) (idStr : String) : GetResult :=
  match ObjectIDFromHex idStr with
  | none => ⟨⟨400, .obj1 "error" "Invalid ID"⟩, false⟩
  | some oid =>
    match findOneOutcome storeFail st oid with
    | .error _ => ⟨⟨404, .obj1 "error" "Book not found"⟩, true⟩
    | .ok b => ⟨⟨200, .book b⟩, true⟩

/-- Result of the `addBook` handler. -/
structure AddResult where
  resp : Response
  newStore : Collection
  storeCalled : Bool
deriving DecidableEq

/-- The `addBook` handler. `body` is the outcome of `BindJSON` (a decode
error message, or the parsed body). -/
def addBook (storeFail : Bool) (st : Collection) (freshId : ObjectID)
    (body : Except String BookJSON) : AddResult :=
  match body with
  | .error e => ⟨⟨400, .obj1 "error" e⟩, st, false⟩
  | .ok j =>
    let newBook := bindBook j
    if storeFail then ⟨⟨500, .obj1 "error" "Error inserting book"⟩, st, true⟩
    else
      let r := mongoInsertOne st freshId newBook
      ⟨⟨201, .insertedID r.2⟩, r.1, true⟩

/-- Result of the `updateBook` handler. -/
structure UpdateResult where
  resp : Response
  newStore : Collection
  storeCalled : Bool
  bodyDecoded : Bool
deriving DecidableEq

/-- The `updateBook` handler: id parse, then `BindJSON`, then `UpdateOne`
with `$set` of the decoded struct. -/
def updateBook (storeFail : Bool) (st : Collection) (idStr : String)
    (body : Except String BookJSON) : UpdateResult :=
  match ObjectIDFromHex idStr with
  | none => ⟨⟨400, .obj1 "error" "Invalid ID"⟩, st, false, false⟩
  | some oid =>
    match body with
    | .error e => ⟨⟨400, .obj1 "error" e⟩, st, false, true⟩
    | .ok j =>
      let updatedBook := bindBook j
      if storeFail then ⟨⟨500, .obj1 "error" "Error updating book"⟩, st, true, true⟩
      else
        match mongoUpdateOne st oid (marshalSet updatedBook) with
        | .error _ => ⟨⟨500, .obj1 "error" "Error updating book"⟩, st, true, true⟩
        | .ok (st2, matched) =>
          if matched = 0 then ⟨⟨404, .obj1 "message" "Book not found"⟩, st2, true, true⟩
          else ⟨⟨200, .obj1 "message" "Book updated"⟩, st2, true, true⟩

/-- Result of the `deleteBook` handler. -/
structure DeleteResult where
  resp : Response
  newStore : Collection
  storeCalled : Bool
deriving DecidableEq

/-- The `deleteBook` handler. -/
def deleteBook (storeFail : Bool) (st : Collection) (idStr : String) : DeleteResult :=
  match ObjectIDFromHex idStr with
  | none => ⟨⟨400, .obj1 "error" "Invalid ID"⟩, st, false⟩
  | some oid =>
    if storeFail then ⟨⟨500, .obj1 "error" "Error deleting book"⟩, st, true⟩
    else
      let r := mongoDeleteOne st oid
      if r.2 = 0 then ⟨⟨404, .obj1 "message" "Book not found"⟩, r.1, true⟩
      else ⟨⟨200, .obj1 "message" "Book deleted"⟩, r.1, true⟩

/-! ## Claims -/

/-- Claim C2: for every identifier string that is not a valid 24-hex-character
identifier, each of the get-by-id, update-by-id and delete-by-id handlers
returns HTTP 400 with message "Invalid ID" and makes no call to the store
(the collection is also left unchanged). -/
theorem C2_invalid_id_rejected_before_store (storeFail : Bool) (st : Collection)
    (idStr : String) (body : Except String BookJSON)
    (h : ObjectIDFromHex idStr = none) :
    getBookByID storeFail st idStr = ⟨⟨400, .obj1 "error" "Invalid ID"⟩, false⟩ ∧
    updateBook storeFail st idStr body =
      ⟨⟨400, .obj1 "error" "Invalid ID"⟩, st, false, false⟩ ∧
    deleteBook storeFail st idStr = ⟨⟨400, .obj1 "error" "Invalid ID"⟩, st, false⟩ := by
  refine ⟨?_, ?_, ?_⟩ <;> simp [getBookByID, updateBook, deleteBook, h]

/-- Witness for C2 at the malformed identifier "abc". -/
theorem C2_witness :
    getBookByID false [] "abc" = ⟨⟨400, .obj1 "error" "Invalid ID"⟩, false⟩ ∧
    updateBook false [] "abc" (.ok {}) =
      ⟨⟨400, .obj1 "error" "Invalid ID"⟩, [], false, false⟩ ∧
    deleteBook false [] "abc" = ⟨⟨400, .obj1 "error" "Invalid ID"⟩, [], false⟩ :=
  C2_invalid_id_rejected_before_store false [] "abc" (.ok {}) (by decide)

/-- Claim C9: in the update handler identifier validation precedes body
decoding: for a malformed path identifier the response is HTTP 400
"Invalid ID" whatever the body is, and the body is never decoded. -/
theorem C9_id_validation_precedes_body_decode (storeFail : Bool) (st : Collection)
    (idStr : String) (body : Except String BookJSON)
    (h : ObjectIDFromHex idStr = none) :
    (updateBook storeFail st idStr body).resp = ⟨400, .obj1 "error" "Invalid ID"⟩ ∧
    (updateBook storeFail st idStr body).bodyDecoded = false := by
  simp [updateBook, h]

/-- Witness for C9: malformed identifier together with a malformed body. -/
theorem C9_witness :
    (updateBook false [] "zz" (.error "unexpected EOF")).resp =
      ⟨400, .obj1 "error" "Invalid ID"⟩ ∧
    (updateBook false [] "zz" (.error "unexpected EOF")).bodyDecoded = false :=
  C9_id_validation_precedes_body_decode false [] "zz" (.error "unexpected EOF") (by decide)

/-- Counterexample to claim C3: on an empty collection the list handler's
body is JSON `null` (the nil Go slice), not the empty array. -/
theorem C3_counterexample :
    getBooks (.ok []) = .resp ⟨200, .null⟩ ∧
    getBooks (.ok []) ≠ .resp ⟨200, .arr []⟩ := by
  decide

/-- Claim C3 as amended: when the collection is empty and the store query
succeeds, the list handler returns HTTP 200 whose body is JSON `null`,
because the `books` slice is still nil and `encoding/json` marshals a nil
slice as `null`. -/
theorem C3_empty_collection_yields_null :
    getBooks (.ok []) = .resp ⟨200, JsonVal.null⟩ := rfl

/-- A cursor element that failed to decode. -/
def isDecodeErr : Except Unit Book → Bool
  | .error _ => true
  | .ok _ => false

theorem collectBooks_eq_none_iff (cur : List (Except Unit Book)) :
    collectBooks cur = none ↔ cur.any isDecodeErr = true := by
  induction cur with
  | nil => simp [collectBooks]
  | cons x rest ih =>
    cases x with
    | error e => simp [collectBooks, isDecodeErr]
    | ok b => simp [collectBooks, isDecodeErr, ih]

/-- Claim C8: the list handler aborts the whole process (`log.Fatal`) exactly
when the store query succeeded and some cursor record fails to decode; on
every other path it produces a response, never an abort. -/
theorem C8_fatal_iff_decode_failure (findRes : Except Unit (List (Except Unit Book))) :
    getBooks findRes = .fatal ↔
      ∃ cur, findRes = .ok cur ∧ cur.any isDecodeErr = true := by
  cases findRes with
  | error e => simp [getBooks]
  | ok cur =>
    rw [getBooks]
    rcases h : collectBooks cur with _ | bs
    · simp [collectBooks_eq_none_iff cur] at h
      simp [h]
    · have : ¬ cur.any isDecodeErr = true := by
        intro hc
        rw [← collectBooks_eq_none_iff cur] at hc
        rw [h] at hc
        exact Option.noConfusion hc
      simp [h]
      simpa using this

/-- Claim C5: for a well-formed identifier, the get-by-id handler returns
HTTP 404 "Book not found" on every failing lookup — a transport/store
failure and a plain miss alike, undistinguished — and HTTP 200 with the
Book on a successful lookup. -/
theorem C5_getBookByID_outcomes (storeFail : Bool) (st : Collection)
    (idStr : String) (oid : ObjectID)
    (h : ObjectIDFromHex idStr = some oid) :
    (storeFail = true →
      getBookByID storeFail st idStr = ⟨⟨404, .obj1 "error" "Book not found"⟩, true⟩) ∧
    (storeFail = false → mongoFindOne st oid = none →
      getBookByID storeFail st idStr = ⟨⟨404, .obj1 "error" "Book not found"⟩, true⟩) ∧
    (∀ b, storeFail = false → mongoFindOne st oid = some b →
      getBookByID storeFail st idStr = ⟨⟨200, .book b⟩, true⟩) := by
  refine ⟨?_, ?_, ?_⟩
  · rintro rfl
    simp [getBookByID, h, findOneOutcome]
  · rintro rfl hm
    simp [getBookByID, h, findOneOutcome, hm]
  · rintro b rfl hm
    simp [getBookByID, h, findOneOutcome, hm]

/-- Witness for C5: a well-formed identifier missing from an empty store. -/
theorem C5_witness :
    getBookByID false [] "aaaaaaaaaaaaaaaaaaaaaaaa" =
      ⟨⟨404, .obj1 "error" "Book not found"⟩, true⟩ :=
  (C5_getBookByID_outcomes false [] "aaaaaaaaaaaaaaaaaaaaaaaa"
    "aaaaaaaaaaaaaaaaaaaaaaaa" (by decide)).2.1 rfl (by decide)

/-- Claim C6: the update handler's exact outcome map — malformed identifier
→ 400 "Invalid ID"; malformed body → 400 with the decode error message;
store failure (transport failure or write error) → 500 "Error updating
book"; zero matched records → 404 "Book not found"; otherwise → 200 with
the acknowledgement "Book updated". -/
theorem C6_updateBook_outcomes (storeFail : Bool) (st : Collection)
    (idStr : String) (body : Except String BookJSON) :
    (ObjectIDFromHex idStr = none →
      (updateBook storeFail st idStr body).resp = ⟨400, .obj1 "error" "Invalid ID"⟩) ∧
    (∀ oid e, ObjectIDFromHex idStr = some oid → body = .error e →
      (updateBook storeFail st idStr body).resp = ⟨400, .obj1 "error" e⟩) ∧
    (∀ oid j, ObjectIDFromHex idStr = some oid → body = .ok j → storeFail = true →
      (updateBook storeFail st idStr body).resp =
        ⟨500, .obj1 "error" "Error updating book"⟩) ∧
    (∀ oid j, ObjectIDFromHex idStr = some oid → body = .ok j → storeFail = false →
      mongoUpdateOne st oid (marshalSet (bindBook j)) = .error () →
      (updateBook storeFail st idStr body).resp =
        ⟨500, .obj1 "error" "Error updating book"⟩) ∧
    (∀ oid j st2, ObjectIDFromHex idStr = some oid → body = .ok j → storeFail = false →
      mongoUpdateOne st oid (marshalSet (bindBook j)) = .ok (st2, 0) →
      (updateBook storeFail st idStr body).resp =
        ⟨404, .obj1 "message" "Book not found"⟩) ∧
    (∀ oid j st2 n, ObjectIDFromHex idStr = some oid → body = .ok j → storeFail = false →
      mongoUpdateOne st oid (marshalSet (bindBook j)) = .ok (st2, n) → n ≠ 0 →
      (updateBook storeFail st idStr body).resp =
        ⟨200, .obj1 "message" "Book updated"⟩) := by
  refine ⟨?_, ?_, ?_, ?_, ?_, ?_⟩
  · intro h
    simp [updateBook, h]
  · rintro oid e h rfl
    simp [updateBook, h]
  · rintro oid j h rfl rfl
    simp [updateBook, h]
  · rintro oid j h rfl rfl hu
    simp [updateBook, h, hu]
  · rintro oid j st2 h rfl rfl hu
    simp [updateBook, h, hu]
  · rintro oid j st2 n h rfl rfl hu hn
    simp [updateBook, h, hu, hn]

/-- Claim C7: the delete handler's exact outcome map — malformed identifier
→ 400 "Invalid ID"; store failure → 500 "Error deleting book"; zero deleted
records → 404 "Book not found"; otherwise → 200 with the acknowledgement
"Book deleted". -/
theorem C7_deleteBook_outcomes (storeFail : Bool) (st : Collection)
    (idStr : String) :
    (ObjectIDFromHex idStr = none →
      (deleteBook storeFail st idStr).resp = ⟨400, .obj1 "error" "Invalid ID"⟩) ∧
    (∀ oid, ObjectIDFromHex idStr = some oid → storeFail = true →
      (deleteBook storeFail st idStr).resp =
        ⟨500, .obj1 "error" "Error deleting book"⟩) ∧
    (∀ oid, ObjectIDFromHex idStr = some oid → storeFail = false →
      (mongoDeleteOne st oid).2 = 0 →
      (deleteBook storeFail st idStr).resp =
        ⟨404, .obj1 "message" "Book not found"⟩) ∧
    (∀ oid, ObjectIDFromHex idStr = some oid → storeFail = false →
      (mongoDeleteOne st oid).2 ≠ 0 →
      (deleteBook storeFail st idStr).resp =
        ⟨200, .obj1 "message" "Book deleted"⟩) := by
  refine ⟨?_, ?_, ?_, ?_⟩
  · intro h
    simp [deleteBook, h]
  · rintro oid h rfl
    simp [deleteBook, h]
  · rintro oid h rfl hd
    simp [deleteBook, h, hd]
  · rintro oid h rfl hd
    simp [deleteBook, h, hd]

/-- Claim C10: the 404 "Book not found" body's JSON key differs by
operation — `error` for get-by-id, `message` for update and delete — and
the success acknowledgements of update and delete also use `message`. -/
theorem C10_message_key_per_operation :
    (∀ (st : Collection) (idStr : String) (oid : ObjectID),
      ObjectIDFromHex idStr = some oid → mongoFindOne st oid = none →
      (getBookByID false st idStr).resp.body = .obj1 "error" "Book not found") ∧
    (∀ (st : Collection) (idStr : String) (oid : ObjectID) (j : BookJSON) (st2 : Collection),
      ObjectIDFromHex idStr = some oid →
      mongoUpdateOne st oid (marshalSet (bindBook j)) = .ok (st2, 0) →
      (updateBook false st idStr (.ok j)).resp.body = .obj1 "message" "Book not found") ∧
    (∀ (st : Collection) (idStr : String) (oid : ObjectID),
      ObjectIDFromHex idStr = some oid → (mongoDeleteOne st oid).2 = 0 →
      (deleteBook false st idStr).resp.body = .obj1 "message" "Book not found") ∧
    (∀ (st : Collection) (idStr : String) (oid : ObjectID) (j : BookJSON)
        (st2 : Collection) (n : Nat),
      ObjectIDFromHex idStr = some oid →
      mongoUpdateOne st oid (marshalSet (bindBook j)) = .ok (st2, n) → n ≠ 0 →
      (updateBook false st idStr (.ok j)).resp.body = .obj1 "message" "Book updated") ∧
    (∀ (st : Collection) (idStr : String) (oid : ObjectID),
      ObjectIDFromHex idStr = some oid → (mongoDeleteOne st oid).2 ≠ 0 →
      (deleteBook false st idStr).resp.body = .obj1 "message" "Book deleted") := by
  refine ⟨?_, ?_, ?_, ?_, ?_⟩
  · intro st idStr oid h hm
    simp [getBookByID, h, findOneOutcome, hm]
  · intro st idStr oid j st2 h hu
    simp [updateBook, h, hu]
  · intro st idStr oid h hd
    simp [deleteBook, h, hd]
  · intro st idStr oid j st2 n h hu hn
    simp [updateBook, h, hu, hn]
  · intro st idStr oid h hd
    simp [deleteBook, h, hd]

theorem mongoUpdateOne_of_found (sd : SetDoc) (oid : ObjectID) (hsd : sd.id = none) :
    ∀ (st : Collection) (b0 : Book), mongoFindOne st oid = some b0 →
      ∃ st', mongoUpdateOne st oid sd = .ok (st', 1) ∧
        mongoFindOne st' oid = some (applySet sd b0) := by
  intro st
  induction st with
  | nil =>
    intro b0 h
    simp [mongoFindOne] at h
  | cons b rest ih =>
    intro b0 h
    cases hb : (b.ID == oid) with
    | true =>
      simp only [mongoFindOne, List.find?, hb] at h
      obtain rfl : b = b0 := Option.some.inj h
      refine ⟨applySet sd b :: rest, ?_, ?_⟩
      · simp [mongoUpdateOne, hb, hsd]
      · have hpos : ((applySet sd b).ID == oid) = true := by
          simpa [applySet, hsd] using hb
        simp [mongoFindOne, List.find?, hpos]
    | false =>
      simp only [mongoFindOne, List.find?, hb] at h
      obtain ⟨st', hupd, hfind⟩ := ih b0 h
      refine ⟨b :: st', ?_, ?_⟩
      · simp [mongoUpdateOne, hb, hupd]
      · simp only [mongoFindOne, List.find?, hb]
        exact hfind

/-- Claim C1: an update on an existing id whose body omits some Book fields
overwrites the stored record's omitted fields with their zero values (empty
string for title/author, 0 for price): the handler passes the fully decoded
struct into a full-field `$set`, not a partial merge. -/
theorem C1_update_overwrites_omitted_with_zero (st : Collection) (idStr : String)
    (oid : ObjectID) (j : BookJSON) (b0 : Book)
    (hid : ObjectIDFromHex idStr = some oid)
    (hexists : mongoFindOne st oid = some b0)
    (hjid : j.id = none) :
    ∃ b', mongoFindOne (updateBook false st idStr (.ok j)).newStore oid = some b' ∧
      b'.Title = j.title.getD "" ∧ b'.Author = j.author.getD "" ∧
      b'.Price = j.price.getD 0 ∧
      (j.title = none → b'.Title = "") ∧
      (j.author = none → b'.Author = "") ∧
      (j.price = none → b'.Price = 0) := by
  have hsd : (marshalSet (bindBook j)).id = none := by
    simp [marshalSet, bindBook, hjid]
  obtain ⟨st', hupd, hfind⟩ :=
    mongoUpdateOne_of_found (marshalSet (bindBook j)) oid hsd st b0 hexists
  have hnew : (updateBook false st idStr (.ok j)).newStore = st' := by
    simp [updateBook, hid, hupd]
  refine ⟨applySet (marshalSet (bindBook j)) b0, ?_, ?_, ?_, ?_, ?_, ?_, ?_⟩
  · rw [hnew]
    exact hfind
  · simp [applySet, marshalSet, bindBook]
  · simp [applySet, marshalSet, bindBook]
  · simp [applySet, marshalSet, bindBook]
  · intro ht
    simp [applySet, marshalSet, bindBook, ht]
  · intro ha
    simp [applySet, marshalSet, bindBook, ha]
  · intro hp
    simp [applySet, marshalSet, bindBook, hp]

/-- Witness for C1: updating an existing book with a body that only carries a
price zeroes the stored title and author. -/
theorem C1_witness :
    ∃ b', mongoFindOne (updateBook false
        [{ ID := "aaaaaaaaaaaaaaaaaaaaaaaa", Title := "Dune", Author := "Herbert", Price := 10 }]
        "aaaaaaaaaaaaaaaaaaaaaaaa"
        (.ok { price := some 2 })).newStore "aaaaaaaaaaaaaaaaaaaaaaaa" = some b' ∧
      b'.Title = "" ∧ b'.Author = "" ∧ b'.Price = 2 ∧
      ((none : Option String) = none → b'.Title = "") ∧
      ((none : Option String) = none → b'.Author = "") ∧
      ((some 2 : Option Rat) = none → b'.Price = 0) :=
  C1_update_overwrites_omitted_with_zero
    [{ ID := "aaaaaaaaaaaaaaaaaaaaaaaa", Title := "Dune", Author := "Herbert", Price := 10 }]
    "aaaaaaaaaaaaaaaaaaaaaaaa" "aaaaaaaaaaaaaaaaaaaaaaaa" { price := some 2 }
    { ID := "aaaaaaaaaaaaaaaaaaaaaaaa", Title := "Dune", Author := "Herbert", Price := 10 }
    (by decide) (by decide) rfl

/-- Counterexample to claim C4: a create request whose body supplies a
non-zero id persists exactly that id; the store-assigned fresh id is not
used, so the supplied id is not ignored. -/
theorem C4_counterexample :
    (addBook false [] "bbbbbbbbbbbbbbbbbbbbbbbb"
        (.ok { id := some "aaaaaaaaaaaaaaaaaaaaaaaa" })).newStore =
      [{ ID := "aaaaaaaaaaaaaaaaaaaaaaaa" }] ∧
    ("aaaaaaaaaaaaaaaaaaaaaaaa" : ObjectID) ≠ "bbbbbbbbbbbbbbbbbbbbbbbb" := by
  decide

/-- Claim C4 as amended: on create, the persisted id comes from the payload
whenever the decoded id is non-zero; the store assigns the id (`freshId`)
only when the payload omits the id or supplies the zero ObjectID, which
`bson:"_id,omitempty"` drops from the inserted document. -/
theorem C4_insert_id_source (st : Collection) (freshId : ObjectID) (j : BookJSON) :
    ((bindBook j).ID = NilObjectID →
      (addBook false st freshId (.ok j)).newStore =
        st ++ [{ bindBook j with ID := freshId }]) ∧
    ((bindBook j).ID ≠ NilObjectID →
      (addBook false st freshId (.ok j)).newStore = st ++ [bindBook j]) := by
  constructor
  · intro h
    simp [addBook, mongoInsertOne, h]
  · intro h
    simp [addBook, mongoInsertOne, h]
